import Mathlib

/-
Verification of the Execution Orchestration subsystem of the
myResearchBuddy repository (backend/app/execution.py, backend/app/storage.py,
backend/app/main.py) against its natural-language specification.

The Python source is shallowly embedded: pure fragments become Lean
functions, stateful fragments thread explicit state, raised exceptions
become `Except`/`Option` results, and the two append-only log files of a
run are byte lists.  Machine words inside SHA-256 are `Nat` reduced
modulo 2 ^ 32.
-/

set_option maxHeartbeats 1000000

namespace Buddy

/-- File contents are byte sequences; a byte is a `Nat` below 256. -/
abbrev Bytes := List Nat

/-! ## SHA-256 (model of Python `hashlib.sha256`)

`storage.checksum_files` feeds whole files into one SHA-256 digest and
returns the hex digest.  The hash below is the standard FIPS 180-4
SHA-256 over a byte list, with 32-bit words represented as `Nat` modulo
`2 ^ 32`. -/

/-- Reduce modulo the 32-bit word size. -/
def w32 (n : Nat) : Nat := n % 4294967296

/-- Right rotation of a 32-bit word (argument assumed below `2 ^ 32`). -/
def rotr32 (x n : Nat) : Nat := w32 (x / 2 ^ n + x % 2 ^ n * 2 ^ (32 - n))

/-- Logical right shift. -/
def shr32 (x n : Nat) : Nat := x / 2 ^ n

def bsig0 (x : Nat) : Nat := rotr32 x 2 ^^^ rotr32 x 13 ^^^ rotr32 x 22

def bsig1 (x : Nat) : Nat := rotr32 x 6 ^^^ rotr32 x 11 ^^^ rotr32 x 25

def ssig0 (x : Nat) : Nat := rotr32 x 7 ^^^ rotr32 x 18 ^^^ shr32 x 3

def ssig1 (x : Nat) : Nat := rotr32 x 17 ^^^ rotr32 x 19 ^^^ shr32 x 10

/-- The 64 SHA-256 round constants. -/
def shaK : List Nat :=
  [1116352408, 1899447441, 3049323471, 3921009573, 961987163,
   1508970993, 2453635748, 2870763221, 3624381080, 310598401,
   607225278, 1426881987, 1925078388, 2162078206, 2614888103,
   3248222580, 3835390401, 4022224774, 264347078, 604807628,
   770255983, 1249150122, 1555081692, 1996064986, 2554220882,
   2821834349, 2952996808, 3210313671, 3336571891, 3584528711,
   113926993, 338241895, 666307205, 773529912, 1294757372,
   1396182291, 1695183700, 1986661051, 2177026350, 2456956037,
   2730485921, 2820302411, 3259730800, 3345764771, 3516065817,
   3600352804, 4094571909, 275423344, 430227734, 506948616,
   659060556, 883997877, 958139571, 1322822218, 1537002063,
   1747873779, 1955562222, 2024104815, 2227730452, 2361852424,
   2428436474, 2756734187, 3204031479, 3329325298]

/-- SHA-256 padding: append the byte 128, zero bytes up to 56 mod 64, then the
bit length as eight big-endian bytes. -/
def shaPad (msg : Bytes) : Bytes :=
  let L := msg.length
  let zeros := (119 - L % 64) % 64
  let bitLen := 8 * L
  msg ++ [128] ++ List.replicate zeros 0 ++
    ((List.range 8).map fun i => bitLen / 2 ^ (8 * (7 - i)) % 256)

/-- Split a byte list into 64-byte blocks. -/
def chunks64 (l : Bytes) : List Bytes :=
  match l with
  | [] => []
  | x :: xs => ((x :: xs).take 64) :: chunks64 ((x :: xs).drop 64)
termination_by l.length
decreasing_by simp [List.length_drop]; omega

/-- Big-endian 32-bit word `t` of a 64-byte block. -/
def blockWord (blk : Bytes) (t : Nat) : Nat :=
  blk.getD (4 * t) 0 * 16777216 + blk.getD (4 * t + 1) 0 * 65536 +
    blk.getD (4 * t + 2) 0 * 256 + blk.getD (4 * t + 3) 0

/-- The SHA-256 message schedule for one block. -/
def shaW (blk : Bytes) (t : Nat) : Nat :=
  if t < 16 then blockWord blk t
  else
    w32 (ssig1 (shaW blk (t - 2)) + shaW blk (t - 7) +
      ssig0 (shaW blk (t - 15)) + shaW blk (t - 16))
termination_by t
decreasing_by all_goals omega

/-- The eight 32-bit working variables of the compression function. -/
structure Sha8 where
  va : Nat
  vb : Nat
  vc : Nat
  vd : Nat
  ve : Nat
  vf : Nat
  vg : Nat
  vh : Nat
deriving DecidableEq, Repr

/-- Initial SHA-256 hash value. -/
def shaH0 : Sha8 :=
  ⟨1779033703, 3144134277, 1013904242, 2773480762,
   1359893119, 2600822924, 528734635, 1541459225⟩

/-- One round of the SHA-256 compression function. -/
def compressStep (blk : Bytes) (st : Sha8) (t : Nat) : Sha8 :=
  let s1 := bsig1 st.ve
  let ch := st.ve &&& st.vf ^^^ (st.ve ^^^ 4294967295) &&& st.vg
  let t1 := w32 (st.vh + s1 + ch + shaK.getD t 0 + shaW blk t)
  let s0 := bsig0 st.va
  let maj := st.va &&& st.vb ^^^ st.va &&& st.vc ^^^ st.vb &&& st.vc
  let t2 := w32 (s0 + maj)
  ⟨w32 (t1 + t2), st.va, st.vb, st.vc, w32 (st.vd + t1), st.ve, st.vf, st.vg⟩

/-- Process one 64-byte block. -/
def compressBlock (st : Sha8) (blk : Bytes) : Sha8 :=
  let fin := (List.range 64).foldl (compressStep blk) st
  ⟨w32 (st.va + fin.va), w32 (st.vb + fin.vb), w32 (st.vc + fin.vc),
   w32 (st.vd + fin.vd), w32 (st.ve + fin.ve), w32 (st.vf + fin.vf),
   w32 (st.vg + fin.vg), w32 (st.vh + fin.vh)⟩

/-- A 32-bit word as four big-endian bytes. -/
def wordBytes (x : Nat) : Bytes :=
  [x / 16777216 % 256, x / 65536 % 256, x / 256 % 256, x % 256]

/-- SHA-256 digest of a byte list, as 32 bytes. -/
def sha256bytes (msg : Bytes) : Bytes :=
  let fin := (chunks64 (shaPad msg)).foldl compressBlock shaH0
  wordBytes fin.va ++ wordBytes fin.vb ++ wordBytes fin.vc ++ wordBytes fin.vd ++
    wordBytes fin.ve ++ wordBytes fin.vf ++ wordBytes fin.vg ++ wordBytes fin.vh

def hexChar (n : Nat) : Char := "0123456789abcdef".toList.getD n 'x'

/-- Lowercase hex rendering of a digest, as `hexdigest()` returns it. -/
def sha256hex (msg : Bytes) : String :=
  String.mk ((sha256bytes msg).flatMap fun b => [hexChar (b / 16), hexChar (b % 16)])

/-- Model of `storage.checksum_files(paths)`: one SHA-256 digest object is
updated with the full bytes of each file in order and the hex digest is
returned.  Incrementally updating a SHA-256 digest with several byte
strings hashes their concatenation, so the paths are modelled by the list
of their current contents and the update loop by a concatenating fold. -/
def checksum_files (contents : List Bytes) : String :=
  sha256hex (contents.foldl (fun acc b => acc ++ b) [])

/-! ## Local runner (`LocalRunner.run_approved`)

Each `subprocess.run` call is modelled by an environment
`exec : Nat → CmdResult` giving, for the i-th executed command, the bytes
it appends to the shared stdout and stderr log files and its exit code.
The loop creates an audit entry per attempted command, updates it with the
checksum of the cumulative log files and the exit code, and breaks at the
first nonzero exit code. -/

/-- Outcome of one `subprocess.run` invocation. -/
structure CmdResult where
  out : Bytes
  err : Bytes
  code : Int
deriving DecidableEq, Repr

/-- The result fields of one `AuditLog` row after its final commit. -/
structure AuditEntry where
  command : String
  exit_code : Int
  artifact_checksum : String
deriving DecidableEq, Repr

/-- State produced by the command loop of `LocalRunner.run_approved`:
the audit rows, the final contents of the two log files, and the
`combined_exit` variable. -/
structure LoopOut where
  audits : List AuditEntry
  outLog : Bytes
  errLog : Bytes
  code : Int
deriving Repr

/-- The `for command in commands` loop of `LocalRunner.run_approved`
(execution.py lines 64-89), started at command index `i` with current log
file contents `o` and `e`.  An audit row is committed for the attempted
command, the command runs appending to both logs, the row is updated with
the checksum of the full current log files and the exit code, and the
loop breaks at the first nonzero exit code. -/
def localLoop (exec : Nat → CmdResult) : List String → Nat → Bytes → Bytes → LoopOut
  | [], _, o, e => ⟨[], o, e, 0⟩
  | c :: rest, i, o, e =>
    let r := exec i
    let o2 := o ++ r.out
    let e2 := e ++ r.err
    let entry : AuditEntry := ⟨c, r.code, checksum_files [o2, e2]⟩
    if r.code ≠ 0 then
      ⟨[entry], o2, e2, r.code⟩
    else
      let res := localLoop exec rest (i + 1) o2 e2
      ⟨entry :: res.audits, res.outLog, res.errLog, res.code⟩

/-- Finalized `Execution` fields of a local run. -/
structure LocalRun where
  audits : List AuditEntry
  outLog : Bytes
  errLog : Bytes
  status : String
  exit_code : Int
deriving Repr

/-- Model of `LocalRunner.run_approved`: the log files are opened empty
(`"w"` mode), the loop runs from the first command, and the Execution is
finalized with `completed`/`failed` according to `combined_exit`. -/
def run_approved_local (exec : Nat → CmdResult) (cmds : List String) : LocalRun :=
  let res := localLoop exec cmds 0 [] []
  ⟨res.audits, res.outLog, res.errLog,
   if res.code = 0 then "completed" else "failed", res.code⟩

/-- Concatenated stdout bytes of the first `n` executed commands. -/
def cumOut (exec : Nat → CmdResult) (n : Nat) : Bytes :=
  ((List.range n).map fun j => (exec j).out).flatten

/-- Concatenated stderr bytes of the first `n` executed commands. -/
def cumErr (exec : Nat → CmdResult) (n : Nat) : Bytes :=
  ((List.range n).map fun j => (exec j).err).flatten

lemma localLoop_all_zero (exec : Nat → CmdResult) :
    ∀ (cmds : List String) (i : Nat) (o e : Bytes),
      (∀ j, j < cmds.length → (exec (i + j)).code = 0) →
      (localLoop exec cmds i o e).code = 0 ∧
        (localLoop exec cmds i o e).audits.length = cmds.length ∧
        (localLoop exec cmds i o e).audits.map (fun a => a.command) = cmds := by
  intro cmds
  induction cmds with
  | nil => intro i o e _; simp [localLoop]
  | cons c rest ih =>
    intro i o e hz
    have h0 : (exec i).code = 0 := by
      have := hz 0 (by simp)
      simpa using this
    have hrest : ∀ j, j < rest.length → (exec (i + 1 + j)).code = 0 := by
      intro j hj
      have := hz (j + 1) (by simpa using Nat.succ_lt_succ hj)
      simpa [Nat.add_comm, Nat.add_assoc, Nat.add_left_comm] using this
    have := ih (i + 1) (o ++ (exec i).out) (e ++ (exec i).err) hrest
    simp [localLoop, h0, this.1, this.2.1, this.2.2]

lemma localLoop_fail (exec : Nat → CmdResult) :
    ∀ (cmds : List String) (k i : Nat) (o e : Bytes),
      k < cmds.length →
      (∀ j, j < k → (exec (i + j)).code = 0) →
      (exec (i + k)).code ≠ 0 →
      (localLoop exec cmds i o e).code = (exec (i + k)).code ∧
        (localLoop exec cmds i o e).audits.length = k + 1 ∧
        (localLoop exec cmds i o e).audits.map (fun a => a.command) =
          cmds.take (k + 1) := by
  intro cmds
  induction cmds with
  | nil => intro k i o e hk; simp at hk
  | cons c rest ih =>
    intro k i o e hk hz hf
    cases k with
    | zero =>
      have hf0 : (exec i).code ≠ 0 := by simpa using hf
      simp [localLoop, hf0]
    | succ m =>
      have h0 : (exec i).code = 0 := by
        have := hz 0 (Nat.succ_pos m)
        simpa using this
      have hz2 : ∀ j, j < m → (exec (i + 1 + j)).code = 0 := by
        intro j hj
        have := hz (j + 1) (Nat.succ_lt_succ hj)
        simpa [Nat.add_comm, Nat.add_assoc, Nat.add_left_comm] using this
      have hf2 : (exec (i + 1 + m)).code ≠ 0 := by
        have heq : i + 1 + m = i + (m + 1) := by omega
        simpa [heq] using hf
      have hk2 : m < rest.length := by simpa using Nat.lt_of_succ_lt_succ hk
      have hres := ih m (i + 1) (o ++ (exec i).out) (e ++ (exec i).err) hk2 hz2 hf2
      have heq : i + 1 + m = i + (m + 1) := by omega
      rw [heq] at hres
      simp [localLoop, h0, hres.1, hres.2.1, hres.2.2]

lemma cumOutShift (exec : Nat → CmdResult) (i n : Nat) :
    ((List.range (n + 1)).map fun j => (exec (i + j)).out).flatten =
      (exec i).out ++ ((List.range n).map fun j => (exec (i + 1 + j)).out).flatten := by
  rw [List.range_succ_eq_map, List.map_cons, List.flatten_cons, List.map_map,
    Nat.add_zero]
  congr 1
  congr 1
  apply List.map_congr_left
  intro a _
  have hsh : i + (a + 1) = i + 1 + a := by omega
  simp [Function.comp, hsh]

lemma cumErrShift (exec : Nat → CmdResult) (i n : Nat) :
    ((List.range (n + 1)).map fun j => (exec (i + j)).err).flatten =
      (exec i).err ++ ((List.range n).map fun j => (exec (i + 1 + j)).err).flatten := by
  rw [List.range_succ_eq_map, List.map_cons, List.flatten_cons, List.map_map,
    Nat.add_zero]
  congr 1
  congr 1
  apply List.map_congr_left
  intro a _
  have hsh : i + (a + 1) = i + 1 + a := by omega
  simp [Function.comp, hsh]

lemma localLoop_checksum (exec : Nat → CmdResult) :
    ∀ (cmds : List String) (k i : Nat) (o e : Bytes),
      k < (localLoop exec cmds i o e).audits.length →
      ((localLoop exec cmds i o e).audits.getD k ⟨"", 0, ""⟩).artifact_checksum =
        checksum_files
          [o ++ ((List.range (k + 1)).map fun j => (exec (i + j)).out).flatten,
           e ++ ((List.range (k + 1)).map fun j => (exec (i + j)).err).flatten] := by
  intro cmds
  induction cmds with
  | nil => intro k i o e hk; simp [localLoop] at hk
  | cons c rest ih =>
    intro k i o e hk
    by_cases h0 : (exec i).code = 0
    · cases k with
      | zero =>
        have hr1 : List.range 1 = [0] := by simp [List.range_succ]
        simp [localLoop, h0, hr1]
      | succ m =>
        have hk2 : m < (localLoop exec rest (i + 1) (o ++ (exec i).out)
            (e ++ (exec i).err)).audits.length := by
          simp [localLoop, h0] at hk
          omega
        have hih := ih m (i + 1) (o ++ (exec i).out) (e ++ (exec i).err) hk2
        rw [cumOutShift exec i (m + 1), cumErrShift exec i (m + 1)]
        simp only [localLoop, h0, ite_false, List.getD_cons_succ]
        simpa [List.getD, List.append_assoc] using hih
    · have hk1 : k = 0 := by
        simp [localLoop, h0] at hk
        omega
      subst hk1
      have hr1 : List.range 1 = [0] := by simp [List.range_succ]
      simp [localLoop, h0, hr1]

/-! ## Claim C1 and C7 theorems for the local runner. -/

/-- C1: on the Local backend commands run strictly in list order and stop
at the first nonzero exit code: if the first `k` commands exit 0 and
command `k` exits nonzero, the Execution ends `failed` with that exit
code, exactly `k + 1` audit entries exist and they audit exactly the
first `k + 1` commands, so no later command is started; if every command
exits 0 the Execution ends `completed` with exit code 0 and one audit
entry per command. -/
theorem C1_local_fail_fast (exec : Nat → CmdResult) (cmds : List String) (k : Nat) :
    ((∀ j, j < cmds.length → (exec j).code = 0) →
      (run_approved_local exec cmds).status = "completed" ∧
        (run_approved_local exec cmds).exit_code = 0 ∧
        (run_approved_local exec cmds).audits.length = cmds.length ∧
        (run_approved_local exec cmds).audits.map (fun a => a.command) = cmds) ∧
    (k < cmds.length →
      (∀ j, j < k → (exec j).code = 0) →
      (exec k).code ≠ 0 →
      (run_approved_local exec cmds).status = "failed" ∧
        (run_approved_local exec cmds).exit_code = (exec k).code ∧
        (run_approved_local exec cmds).audits.length = k + 1 ∧
        (run_approved_local exec cmds).audits.map (fun a => a.command) =
          cmds.take (k + 1)) := by
  constructor
  · intro hz
    have hz0 : ∀ j, j < cmds.length → (exec (0 + j)).code = 0 := by
      intro j hj; simpa using hz j hj
    have := localLoop_all_zero exec cmds 0 [] [] hz0
    simp [run_approved_local, this.1, this.2.1, this.2.2]
  · intro hk hz hf
    have hz0 : ∀ j, j < k → (exec (0 + j)).code = 0 := by
      intro j hj; simpa using hz j hj
    have hf0 : (exec (0 + k)).code ≠ 0 := by simpa using hf
    have := localLoop_fail exec cmds k 0 [] [] hk hz0 hf0
    have hcode : (localLoop exec cmds 0 [] []).code = (exec k).code := by
      simpa using this.1
    simp [run_approved_local, hcode, hf, this.2.1, this.2.2]

/-- Environment for the C1 witness: command 1 fails with exit code 1,
all others succeed. -/
def execW : Nat → CmdResult := fun i =>
  if i = 1 then ⟨[], [110], 1⟩ else ⟨[111, 107], [], 0⟩

theorem C1_witness :
    (1 < (["echo ok", "false", "echo never"] : List String).length ∧
      (∀ j, j < 1 → (execW j).code = 0) ∧ (execW 1).code ≠ 0) ∧
    ((run_approved_local execW ["echo ok", "false", "echo never"]).status = "failed" ∧
      (run_approved_local execW ["echo ok", "false", "echo never"]).exit_code =
        (execW 1).code ∧
      (run_approved_local execW ["echo ok", "false", "echo never"]).audits.length =
        1 + 1 ∧
      (run_approved_local execW ["echo ok", "false", "echo never"]).audits.map
          (fun a => a.command) =
        (["echo ok", "false", "echo never"] : List String).take (1 + 1)) :=
  ⟨⟨by decide, by decide, by decide⟩,
   (C1_local_fail_fast execW ["echo ok", "false", "echo never"] 1).2
     (by decide) (by decide) (by decide)⟩

/-- C7: the audit checksum is a pure function of the two log files'
contents: it is the SHA-256 digest of the stdout log's bytes followed by
the stderr log's bytes; the `k`-th audit entry of a local run carries the
digest of everything logged through command `k` (cumulative, not a
per-command diff); and any two runs whose cumulative log bytes agree at
the audited moments carry the identical digest. -/
theorem C7_checksum_cumulative (s e : Bytes) (exec exec2 : Nat → CmdResult)
    (cmds cmds2 : List String) (k k2 : Nat) :
    checksum_files [s, e] = sha256hex (s ++ e) ∧
    (k < (run_approved_local exec cmds).audits.length →
      ((run_approved_local exec cmds).audits.getD k ⟨"", 0, ""⟩).artifact_checksum =
        checksum_files [cumOut exec (k + 1), cumErr exec (k + 1)]) ∧
    (k < (run_approved_local exec cmds).audits.length →
      k2 < (run_approved_local exec2 cmds2).audits.length →
      cumOut exec (k + 1) = cumOut exec2 (k2 + 1) →
      cumErr exec (k + 1) = cumErr exec2 (k2 + 1) →
      ((run_approved_local exec cmds).audits.getD k ⟨"", 0, ""⟩).artifact_checksum =
        ((run_approved_local exec2 cmds2).audits.getD k2
            ⟨"", 0, ""⟩).artifact_checksum) := by
  have hcum : ∀ (ex : Nat → CmdResult) (cs : List String) (j : Nat),
      j < (run_approved_local ex cs).audits.length →
      ((run_approved_local ex cs).audits.getD j ⟨"", 0, ""⟩).artifact_checksum =
        checksum_files [cumOut ex (j + 1), cumErr ex (j + 1)] := by
    intro ex cs j hj
    have hj2 : j < (localLoop ex cs 0 [] []).audits.length := by
      simpa [run_approved_local] using hj
    have := localLoop_checksum ex cs j 0 [] [] hj2
    simpa [run_approved_local, cumOut, cumErr] using this
  refine ⟨by simp [checksum_files], hcum exec cmds k, ?_⟩
  intro h1 h2 ho he
  rw [hcum exec cmds k h1, hcum exec2 cmds2 k2 h2, ho, he]

/-- First run for the C7 witness: a single command. -/
def execA : Nat → CmdResult := fun _ => ⟨[1, 2], [3], 0⟩

/-- Second run for the C7 witness: two commands whose combined output
bytes equal those of the first run's single command. -/
def execB : Nat → CmdResult := fun i =>
  if i = 0 then ⟨[1], [], 0⟩ else ⟨[2], [3], 0⟩

theorem C7_witness :
    (0 < (run_approved_local execA ["a"]).audits.length ∧
      1 < (run_approved_local execB ["b", "c"]).audits.length ∧
      cumOut execA 1 = cumOut execB 2 ∧ cumErr execA 1 = cumErr execB 2) ∧
    ((run_approved_local execA ["a"]).audits.getD 0 ⟨"", 0, ""⟩).artifact_checksum =
      ((run_approved_local execB ["b", "c"]).audits.getD 1
          ⟨"", 0, ""⟩).artifact_checksum :=
  ⟨⟨by decide, by decide, by decide, by decide⟩,
   (C7_checksum_cumulative [] [] execA execB ["a"] ["b", "c"] 0 1).2.2
     (by decide) (by decide) (by decide) (by decide)⟩

/-! ## Remote session runner (`SSHRunner.run_approved`)

The network environment is modelled by whether `client.connect` succeeds,
whether `_stage_uploads` succeeds, and, per command index, whether
`exec_command` returns a result or raises.  `SSHRunner.run_approved` has
no `try`/`finally` and no `with` block around the session: `sftp.close()`
and `client.close()` (execution.py lines 180-181) run only when control
reaches the end of the function body, while a raised exception propagates
to the caller at once.  The model records which acquisitions and releases
actually happened on each path.  Database writes and audit rows do not
affect the session lifecycle and are elided here. -/

deriving instance DecidableEq for Except

/-- Exceptions that can escape `SSHRunner.run_approved`. -/
inductive SSHErr where
  | connectFail
  | stageFail
  | execFail
deriving DecidableEq, Repr

/-- Network environment of one remote run. -/
structure SSHEnv where
  connectOk : Bool
  stageOk : Bool
  execRes : Nat → Option CmdResult
deriving Inhabited

/-- Observable outcome of `SSHRunner.run_approved`: the returned
(status, exit code) or the escaped exception, plus which lifecycle events
happened. -/
structure SSHRun where
  result : Except SSHErr (String × Int)
  sessionOpened : Bool
  sessionClosed : Bool
  sftpOpened : Bool
  sftpClosed : Bool
deriving DecidableEq, Repr

/-- The per-command loop (execution.py lines 147-173): each command is
executed remotely; a raised `exec_command` error propagates; otherwise
the loop breaks at the first nonzero remote exit status.  Returns the
exit code recorded on the Execution (0 when every command succeeded). -/
def sshLoop (env : SSHEnv) : List String → Nat → Except SSHErr Int
  | [], _ => .ok 0
  | _ :: rest, i =>
    match env.execRes i with
    | none => .error .execFail
    | some r => if r.code ≠ 0 then .ok r.code else sshLoop env rest (i + 1)

/-- Model of `SSHRunner.run_approved` (execution.py lines 106-182):
connect, open the SFTP channel, stage uploads, run the command loop,
finalize the status, then close the channel and the session — in that
textual order, with no exception handler anywhere. -/
def ssh_run_approved (env : SSHEnv) (cmds : List String) : SSHRun :=
  if !env.connectOk then
    ⟨.error .connectFail, false, false, false, false⟩
  else if !env.stageOk then
    ⟨.error .stageFail, true, false, true, false⟩
  else
    match sshLoop env cmds 0 with
    | .error ex => ⟨.error ex, true, false, true, false⟩
    | .ok code =>
      ⟨.ok (if code = 0 then ("completed", 0) else ("failed", code)),
        true, true, true, true⟩

/-- C2 fails on the code: with a reachable host but a staging failure,
`run_approved` raises before ever reaching `sftp.close()` and
`client.close()`, so the opened session and channel are NOT closed on
that exit path. -/
def envStageFail : SSHEnv := ⟨true, false, fun _ => some ⟨[], [], 0⟩⟩

theorem C2_counterexample :
    (ssh_run_approved envStageFail ["x"]).result = .error .stageFail ∧
      (ssh_run_approved envStageFail ["x"]).sessionOpened = true ∧
      (ssh_run_approved envStageFail ["x"]).sessionClosed = false ∧
      (ssh_run_approved envStageFail ["x"]).sftpOpened = true ∧
      (ssh_run_approved envStageFail ["x"]).sftpClosed = false := by
  refine ⟨rfl, rfl, rfl, rfl, rfl⟩

lemma sshLoop_no_connect_or_stage (env : SSHEnv) :
    ∀ (cmds : List String) (i : Nat),
      sshLoop env cmds i ≠ .error .connectFail ∧
        sshLoop env cmds i ≠ .error .stageFail := by
  intro cmds
  induction cmds with
  | nil => intro i; simp [sshLoop]
  | cons c rest ih =>
    intro i
    cases hx : env.execRes i with
    | none => simp [sshLoop, hx]
    | some r =>
      by_cases hc : r.code = 0
      · simpa [sshLoop, hx, hc] using ih (i + 1)
      · simp [sshLoop, hx, hc]

/-- C2 (amended): on every normal return of `SSHRunner.run_approved` —
all commands succeeding, or the fail-fast stop at a nonzero exit — the
session and its file-transfer channel are both closed before returning;
if the connection attempt itself raises, neither was ever opened; but if
staging or a command execution raises, both were opened and NEITHER is
closed when control returns to the caller. -/
theorem C2_session_lifecycle (env : SSHEnv) (cmds : List String) (s : String) (c : Int) :
    ((ssh_run_approved env cmds).result = .ok (s, c) →
      (ssh_run_approved env cmds).sessionOpened = true ∧
        (ssh_run_approved env cmds).sessionClosed = true ∧
        (ssh_run_approved env cmds).sftpOpened = true ∧
        (ssh_run_approved env cmds).sftpClosed = true) ∧
    (env.connectOk = false →
      (ssh_run_approved env cmds).result = .error .connectFail ∧
        (ssh_run_approved env cmds).sessionOpened = false ∧
        (ssh_run_approved env cmds).sftpOpened = false) ∧
    ((ssh_run_approved env cmds).result = .error .stageFail ∨
        (ssh_run_approved env cmds).result = .error .execFail →
      (ssh_run_approved env cmds).sessionOpened = true ∧
        (ssh_run_approved env cmds).sftpOpened = true ∧
        (ssh_run_approved env cmds).sessionClosed = false ∧
        (ssh_run_approved env cmds).sftpClosed = false) := by
  cases hcon : env.connectOk with
  | false => simp [ssh_run_approved, hcon]
  | true =>
    cases hst : env.stageOk with
    | false => simp [ssh_run_approved, hcon, hst]
    | true =>
      cases hl : sshLoop env cmds 0 with
      | error ex => simp [ssh_run_approved, hcon, hst, hl]
      | ok code => simp [ssh_run_approved, hcon, hst, hl]

/-- All-success environment for the C2 witness. -/
def envOk : SSHEnv := ⟨true, true, fun _ => some ⟨[5], [], 0⟩⟩

theorem C2_witness :
    (ssh_run_approved envOk ["a", "b"]).result = .ok ("completed", 0) ∧
      ((ssh_run_approved envOk ["a", "b"]).sessionOpened = true ∧
        (ssh_run_approved envOk ["a", "b"]).sessionClosed = true ∧
        (ssh_run_approved envOk ["a", "b"]).sftpOpened = true ∧
        (ssh_run_approved envOk ["a", "b"]).sftpClosed = true) :=
  ⟨by decide,
   (C2_session_lifecycle envOk ["a", "b"] "completed" 0).1 (by decide)⟩

/-! ## String utilities shared by the screener and the staging model. -/

/-- Boolean test that `n` is a prefix of `h2` (character lists). -/
def listPrefixEq : List Char → List Char → Bool
  | [], _ => true
  | _ :: _, [] => false
  | a :: as, b :: bs => a == b && listPrefixEq as bs

/-- Boolean test that `n` occurs contiguously inside `h2`, the semantics
of Python's `n in h2` on strings. -/
def hasSub (n : List Char) : List Char → Bool
  | [] => listPrefixEq n []
  | c :: rest => listPrefixEq n (c :: rest) || hasSub n rest

/-- Python `bad in cmd`. -/
def strContains (cmd bad : String) : Bool := hasSub bad.toList cmd.toList

/-- Python `s.startswith(p)`. -/
def strStartsWith (s p : String) : Bool := listPrefixEq p.toList s.toList

/-- Drop the first `n` characters of a string. -/
def strDrop (s : String) (n : Nat) : String := String.mk (s.toList.drop n)

lemma listPrefixEq_iff : ∀ (n h2 : List Char),
    listPrefixEq n h2 = true ↔ ∃ t, h2 = n ++ t := by
  intro n
  induction n with
  | nil => intro h2; simp [listPrefixEq]
  | cons a as ih =>
    intro h2
    cases h2 with
    | nil => simp [listPrefixEq]
    | cons b bs =>
      simp only [listPrefixEq, Bool.and_eq_true, beq_iff_eq, ih bs]
      constructor
      · rintro ⟨hab, t, ht⟩
        subst hab
        exact ⟨t, by rw [ht]; rfl⟩
      · rintro ⟨t, ht⟩
        simp only [List.cons_append] at ht
        injection ht with h1 h2
        exact ⟨h1.symm, t, h2⟩

lemma hasSub_iff : ∀ (h2 n : List Char),
    hasSub n h2 = true ↔ ∃ p q, h2 = p ++ n ++ q := by
  intro h2
  induction h2 with
  | nil =>
    intro n
    simp [hasSub, listPrefixEq_iff]
  | cons c rest ih =>
    intro n
    simp only [hasSub, Bool.or_eq_true, listPrefixEq_iff, ih]
    constructor
    · rintro (⟨t, ht⟩ | ⟨p, q, hpq⟩)
      · exact ⟨[], t, by simp [ht]⟩
      · exact ⟨c :: p, q, by simp [hpq]⟩
    · rintro ⟨p, q, hpq⟩
      cases p with
      | nil => exact Or.inl ⟨q, by simpa using hpq⟩
      | cons d ds =>
        simp only [List.cons_append, List.cons.injEq] at hpq
        exact Or.inr ⟨ds, q, hpq.2⟩

lemma toList_append (s t : String) : (s ++ t).toList = s.toList ++ t.toList := rfl

lemma strMk_toList (s : String) : String.mk s.toList = s := by
  cases s
  rfl

/-! ## Command screener (`LocalRunner.plan` / `SSHRunner.plan`, DENYLIST)

Both runner classes implement the identical `plan`: the command list is
returned unchanged together with the sublist of commands containing any
denylisted substring, plus the untouched context. -/

/-- The fixed denylist (execution.py line 16). -/
def DENYLIST : List String := ["rm -rf", "curl | sh", "mkfs", "dd if="]

/-- Model of `LocalRunner.plan` and `SSHRunner.plan` (execution.py lines
38-40 and 102-104): the returned dict `{commands, warnings, context}`. -/
def runner_plan {α : Type} (commands : List String) (context : α) :
    List String × List String × α :=
  (commands,
   commands.filter (fun cmd => DENYLIST.any (fun bad => strContains cmd bad)),
   context)

/-- C9: `plan` is a total pure function: it returns the command list
unchanged and in order, the context unchanged, and a warnings list that
is a sublist of the commands holding exactly those commands that contain
at least one denylisted substring; replanning the returned command list
yields the identical result (idempotence). -/
theorem C9_plan_pure {α : Type} (commands : List String) (context : α) (c : String) :
    (runner_plan commands context).1 = commands ∧
      (runner_plan commands context).2.2 = context ∧
      (runner_plan commands context).2.1.Sublist commands ∧
      (c ∈ (runner_plan commands context).2.1 ↔
        c ∈ commands ∧ ∃ bad ∈ DENYLIST, ∃ p q,
          c.toList = p ++ bad.toList ++ q) ∧
      runner_plan (runner_plan commands context).1 context =
        runner_plan commands context := by
  refine ⟨rfl, rfl, List.filter_sublist _, ?_, rfl⟩
  simp [runner_plan, List.mem_filter, List.any_eq_true, strContains, hasSub_iff]

/-! ## File staging (`SSHRunner._stage_uploads` / `SSHRunner.collect_artifacts`)

Local and remote filesystems are association lists from path strings to
file bytes.  Path objects are modelled as strings with `/` as the join
separator: the pathlib join `base / p` returns `p` itself when `p` is
absolute, `Path.is_absolute` and `str.startswith("/")` both become
`strStartsWith · "/"`, and `Path.relative_to(base)` strips the prefix
`base ++ "/"` or raises `ValueError`.  `collect_artifacts` opens its own
fresh session; the session bookkeeping is orthogonal to the round-trip
property and elided here. -/

/-- One `{local, remote}` staging directive (fields may be missing). -/
structure StageItem where
  localPath : Option String
  remotePath : Option String
deriving DecidableEq, Repr

/-- A filesystem: newest binding first. -/
abbrev FS := List (String × Bytes)

def fsGet : FS → String → Option Bytes
  | [], _ => none
  | (k2, v) :: rest, k => if k2 = k then some v else fsGet rest k

def fsPut (fs : FS) (k : String) (v : Bytes) : FS := (k, v) :: fs

/-- Python truthiness filter `if not x: continue` on an optional string:
`None` and `""` are falsy. -/
def getTruthy : Option String → Option String
  | none => none
  | some s => if s = "" then none else some s

/-- `local if local.is_absolute() else artifacts_dir / local`. -/
def resolveLocal (base p : String) : String :=
  if strStartsWith p "/" then p else base ++ "/" ++ p

/-- `remote if remote.startswith("/") else remote_dir + "/" + remote`. -/
def resolveRemote (remoteDir p : String) : String :=
  if strStartsWith p "/" then p else remoteDir ++ "/" ++ p

/-- `Path.relative_to(base)`: strip `base ++ "/"` or raise `ValueError`. -/
def relTo (base full : String) : Except String String :=
  if strStartsWith full (base ++ "/") then
    .ok (strDrop full (base ++ "/").length)
  else .error "ValueError"

/-- Model of `SSHRunner._stage_uploads` (execution.py lines 216-233):
items with a falsy local or remote field are skipped; the local path is
resolved against the project's artifact directory, the remote path
against the remote base directory; `sftp.put` raises when the local file
is missing, else writes the local file's bytes at the remote path. -/
def stage_uploads (projectBase remoteDir : String) (localFs : FS) :
    List StageItem → FS → Except String FS
  | [], remoteFs => .ok remoteFs
  | it :: rest, remoteFs =>
    match getTruthy it.localPath, getTruthy it.remotePath with
    | some l, some r =>
      match fsGet localFs (resolveLocal projectBase l) with
      | none => .error "FileNotFoundError"
      | some b =>
        stage_uploads projectBase remoteDir localFs rest
          (fsPut remoteFs (resolveRemote remoteDir r) b)
    | _, _ => stage_uploads projectBase remoteDir localFs rest remoteFs

/-- Model of `SSHRunner.collect_artifacts` (execution.py lines 184-214):
items with a falsy remote or local field are skipped; `sftp.get` raises
when the remote file is missing, else the bytes are written at
`base / local` and the path relative to `base` is appended to the saved
list. -/
def collect_artifacts (base : String) :
    List StageItem → FS → FS → Except String (FS × List String)
  | [], _, localFs => .ok (localFs, [])
  | it :: rest, remoteFs, localFs =>
    match getTruthy it.remotePath, getTruthy it.localPath with
    | some r, some lrel =>
      match fsGet remoteFs r with
      | none => .error "FileNotFoundError"
      | some b =>
        match relTo base (resolveLocal base lrel) with
        | .error msg => .error msg
        | .ok relp =>
          match collect_artifacts base rest remoteFs
              (fsPut localFs (resolveLocal base lrel) b) with
          | .error msg => .error msg
          | .ok (fs2, saved) => .ok (fs2, relp :: saved)
    | _, _ => collect_artifacts base rest remoteFs localFs

lemma append_slash_ne_empty (a b : String) : a ++ "/" ++ b ≠ "" := by
  intro hcontra
  have := congrArg String.toList hcontra
  simp [toList_append] at this

lemma relTo_concat (base rest : String) :
    relTo base (base ++ "/" ++ rest) = .ok rest := by
  have hpre : strStartsWith (base ++ "/" ++ rest) (base ++ "/") = true := by
    unfold strStartsWith
    exact (listPrefixEq_iff _ _).mpr ⟨rest.toList, by simp [toList_append]⟩
  have hlen : (base ++ "/").length = (base ++ "/").toList.length := rfl
  unfold relTo
  rw [hpre]
  simp only [ite_true]
  congr 1
  unfold strDrop
  rw [toList_append, hlen, List.drop_left, strMk_toList]

lemma fsGet_fsPut (fs : FS) (k : String) (v : Bytes) :
    fsGet (fsPut fs k v) k = some v := by
  simp [fsGet, fsPut]

/-- C8: uploading a file to a remote path and then collecting a download
directive for that same remote path yields, under the project's artifact
directory, a file byte-identical to the uploaded one, and
`collect_artifacts` reports exactly its artifact-relative path. -/
theorem C8_staging_roundtrip (projectBase remoteDir l r loc : String)
    (localFs remoteFs : FS) (b : Bytes)
    (hl : l ≠ "") (hr : r ≠ "") (hloc : loc ≠ "")
    (hlocRel : strStartsWith loc "/" = false)
    (hfile : fsGet localFs (resolveLocal projectBase l) = some b) :
    stage_uploads projectBase remoteDir localFs
        [⟨some l, some r⟩] remoteFs =
      .ok (fsPut remoteFs (resolveRemote remoteDir r) b) ∧
    collect_artifacts projectBase
        [⟨some loc, some (resolveRemote remoteDir r)⟩]
        (fsPut remoteFs (resolveRemote remoteDir r) b) localFs =
      .ok (fsPut localFs (projectBase ++ "/" ++ loc) b, [loc]) ∧
    fsGet (fsPut localFs (projectBase ++ "/" ++ loc) b)
        (projectBase ++ "/" ++ loc) = some b := by
  have hrp : resolveRemote remoteDir r ≠ "" := by
    unfold resolveRemote
    split
    · exact hr
    · exact append_slash_ne_empty remoteDir r
  have hlocres : resolveLocal projectBase loc = projectBase ++ "/" ++ loc := by
    simp [resolveLocal, hlocRel]
  refine ⟨?_, ?_, fsGet_fsPut _ _ _⟩
  · simp [stage_uploads, getTruthy, hl, hr, hfile]
  · simp only [collect_artifacts, getTruthy, hloc, hrp, ite_false,
      if_neg hloc, if_neg hrp, hlocres, fsGet_fsPut, relTo_concat]

theorem C8_witness :
    (("data.txt" : String) ≠ "" ∧ ("up.bin" : String) ≠ "" ∧
      ("out.bin" : String) ≠ "" ∧ strStartsWith "out.bin" "/" = false ∧
      fsGet [("/art/data.txt", [1, 2, 3])] (resolveLocal "/art" "data.txt") =
        some [1, 2, 3]) ∧
    (stage_uploads "/art" "/rem" [("/art/data.txt", [1, 2, 3])]
        [⟨some "data.txt", some "up.bin"⟩] [] =
      .ok (fsPut [] (resolveRemote "/rem" "up.bin") [1, 2, 3]) ∧
    collect_artifacts "/art"
        [⟨some "out.bin", some (resolveRemote "/rem" "up.bin")⟩]
        (fsPut [] (resolveRemote "/rem" "up.bin") [1, 2, 3])
        [("/art/data.txt", [1, 2, 3])] =
      .ok (fsPut [("/art/data.txt", [1, 2, 3])] ("/art" ++ "/" ++ "out.bin")
        [1, 2, 3], ["out.bin"]) ∧
    fsGet (fsPut [("/art/data.txt", [1, 2, 3])] ("/art" ++ "/" ++ "out.bin")
        [1, 2, 3]) ("/art" ++ "/" ++ "out.bin") = some [1, 2, 3]) :=
  ⟨⟨by decide, by decide, by decide, by decide, by decide⟩,
   C8_staging_roundtrip "/art" "/rem" "data.txt" "up.bin" "out.bin"
     [("/art/data.txt", [1, 2, 3])] [] [1, 2, 3]
     (by decide) (by decide) (by decide) (by decide) (by decide)⟩

/-! ## Batch scheduler polling (`SlurmRunner._poll_job` and finalization)

The environment gives the text returned by the k-th `squeue` query and
the text returned by the single `sacct` query.  Python's
`str.strip()`/`str.split()` semantics (whitespace runs, empties dropped)
are reproduced on character lists. -/

def isWs (c : Char) : Bool := c == ' ' || c == '\t' || c == '\n' || c == '\r'

def splitWsAux : List Char → List Char → List (List Char)
  | [], acc => if acc.isEmpty then [] else [acc.reverse]
  | c :: rest, acc =>
    if isWs c then
      if acc.isEmpty then splitWsAux rest [] else acc.reverse :: splitWsAux rest []
    else splitWsAux rest (c :: acc)

/-- Python `s.split()` (no separator: split on whitespace runs). -/
def pySplitWs (s : String) : List String := (splitWsAux s.toList []).map String.mk

/-- Python `s.strip()`. -/
def pyStrip (s : String) : String :=
  String.mk (((s.toList.dropWhile isWs).reverse.dropWhile isWs).reverse)

/-- Observable behaviour of `SlurmRunner._poll_job`: how many live-queue
(`squeue`) and accounting (`sacct`) queries were issued, and the state
string it returns — or the exception that escapes it. -/
structure PollOutcome where
  squeueCalls : Nat
  sacctCalls : Nat
  state : Except String String
deriving DecidableEq, Repr

/-- Number of `squeue` queries made by `for _ in range(30)` starting at
attempt `k` with `fuel` iterations left: one query per iteration, and the
loop breaks as soon as the stripped output is empty. -/
def squeueCallsFrom (squeueOut : Nat → String) : Nat → Nat → Nat
  | _, 0 => 0
  | k, fuel + 1 =>
    if pyStrip (squeueOut k) = "" then 1
    else 1 + squeueCallsFrom squeueOut (k + 1) fuel

/-- Model of `SlurmRunner._poll_job` (execution.py lines 359-369).  With
an empty job id it returns `"FAILED"` without any query.  Otherwise it
polls `squeue` up to 30 times, then issues exactly one `sacct` query and
evaluates `stdout.read().decode().strip().split()[0] if stdout else
"FAILED"`.  The guard tests the channel file object, which is always
truthy, so when the accounting output is empty the indexing `[0]` raises
`IndexError`. -/
def poll_job (jobId : String) (squeueOut : Nat → String) (sacctOut : String) :
    PollOutcome :=
  if jobId = "" then ⟨0, 0, .ok "FAILED"⟩
  else
    ⟨squeueCallsFrom squeueOut 0 30, 1,
      match pySplitWs (pyStrip sacctOut) with
      | [] => .error "IndexError"
      | w :: _ => .ok w⟩

/-- Model of the lines directly after `_poll_job` in
`SlurmRunner.run_approved` (execution.py lines 320-322): the returned
state string maps to `(status, exit_code)`; a raised exception
propagates, leaving the Execution row as it was (status `running`). -/
def slurm_finalize (state : Except String String) : Except String (String × Int) :=
  match state with
  | .error msg => .error msg
  | .ok st => .ok (if st = "COMPLETED" then ("completed", 0) else ("failed", 1))

/-- C3 exposes a code bug: for a submitted job (`job_id = "123"`) that
has already left the live queue, an empty accounting output — exactly the
"job not found" case the spec maps to `failed` — makes `_poll_job` raise
`IndexError` from `split()[0]` (the `if stdout else "FAILED"` guard tests
the always-truthy channel object, not the text), so no Execution outcome
is recorded at all.  The single `sacct` query is still issued. -/
theorem C3_poll_crash :
    (poll_job "123" (fun _ => "") "").state = .error "IndexError" ∧
      (poll_job "123" (fun _ => "") "").sacctCalls = 1 ∧
      (poll_job "123" (fun _ => "") "").squeueCalls = 1 ∧
      slurm_finalize (poll_job "123" (fun _ => "") "").state =
        .error "IndexError" := by
  refine ⟨by decide, by decide, by decide, by decide⟩

/-! ## Batch job script rendering (`SlurmRunner.run_approved`, lines 275-290)

Scheduler defaults are the five optional profile keys; Python's
`defaults.get(key)` truthiness means a directive line is emitted only for
a key that is present AND non-empty. -/

structure SlurmDefaults where
  partition : Option String
  time : Option String
  mem : Option String
  cpus : Option String
  gres : Option String
deriving DecidableEq, Repr

/-- Python truthiness of `defaults.get(key)`: missing key or empty value
is falsy. -/
def optTruthy : Option String → Bool
  | none => false
  | some s => !(s == "")

/-- Model of the `sbatch_lines` construction in `SlurmRunner.run_approved`
(execution.py lines 275-289): shebang, then one directive per TRUTHY
default in the fixed order partition, time, mem, cpus, gres, then the
environment-initialization commands, then the plan's commands. -/
def render_script (d : SlurmDefaults) (env_init commands : List String) :
    List String :=
  let l0 := ["#!/bin/bash"]
  let l1 := if optTruthy d.partition then
    l0 ++ ["#SBATCH -p " ++ d.partition.getD ""] else l0
  let l2 := if optTruthy d.time then
    l1 ++ ["#SBATCH -t " ++ d.time.getD ""] else l1
  let l3 := if optTruthy d.mem then
    l2 ++ ["#SBATCH --mem=" ++ d.mem.getD ""] else l2
  let l4 := if optTruthy d.cpus then
    l3 ++ ["#SBATCH -c " ++ d.cpus.getD ""] else l3
  let l5 := if optTruthy d.gres then
    l4 ++ ["#SBATCH --gres=" ++ d.gres.getD ""] else l4
  l5 ++ env_init ++ commands

/-- The script the claim describes, built from the spec's words: one
directive line per PRESENT default key, in the same fixed order. -/
def spec_render_script (d : SlurmDefaults) (env_init commands : List String) :
    List String :=
  ["#!/bin/bash"] ++
    (match d.partition with
     | some p => ["#SBATCH -p " ++ p]
     | none => []) ++
    (match d.time with
     | some t => ["#SBATCH -t " ++ t]
     | none => []) ++
    (match d.mem with
     | some m => ["#SBATCH --mem=" ++ m]
     | none => []) ++
    (match d.cpus with
     | some c => ["#SBATCH -c " ++ c]
     | none => []) ++
    (match d.gres with
     | some g => ["#SBATCH --gres=" ++ g]
     | none => []) ++
    env_init ++ commands

/-- Directive lines for the keys that are present with a non-empty
(truthy) value, in the fixed order. -/
def truthy_dir_lines (d : SlurmDefaults) : List String :=
  (if optTruthy d.partition then ["#SBATCH -p " ++ d.partition.getD ""] else []) ++
    (if optTruthy d.time then ["#SBATCH -t " ++ d.time.getD ""] else []) ++
    (if optTruthy d.mem then ["#SBATCH --mem=" ++ d.mem.getD ""] else []) ++
    (if optTruthy d.cpus then ["#SBATCH -c " ++ d.cpus.getD ""] else []) ++
    (if optTruthy d.gres then ["#SBATCH --gres=" ++ d.gres.getD ""] else [])

/-- A defaults map whose `partition` key is present but empty. -/
def defaultsEmptyPartition : SlurmDefaults := ⟨some "", none, none, none, none⟩

/-- C4 fails on the code: a `partition` key present in the defaults with
an empty value is a present key, so the claim demands a directive line
for it, but truthiness gating emits none: the rendered script is the bare
shebang, not the spec-shaped script. -/
theorem C4_counterexample :
    defaultsEmptyPartition.partition.isSome = true ∧
      render_script defaultsEmptyPartition [] [] = ["#!/bin/bash"] ∧
      spec_render_script defaultsEmptyPartition [] [] =
        ["#!/bin/bash", "#SBATCH -p "] ∧
      render_script defaultsEmptyPartition [] [] ≠
        spec_render_script defaultsEmptyPartition [] [] := by
  refine ⟨by decide, by decide, by decide, by decide⟩

/-- C4 (amended): the rendered job script is exactly the shebang line,
then one scheduler directive line per default key that is present with a
non-empty (truthy) value, in the fixed order partition, time, memory,
CPU count, GRES, then the environment-initialization commands, then the
plan's commands verbatim, and nothing else. -/
theorem C4_script_rendering (d : SlurmDefaults) (env_init commands : List String) :
    render_script d env_init commands =
      ["#!/bin/bash"] ++ truthy_dir_lines d ++ env_init ++ commands := by
  unfold render_script truthy_dir_lines
  cases hp : optTruthy d.partition <;> cases ht : optTruthy d.time <;>
    cases hm : optTruthy d.mem <;> cases hc : optTruthy d.cpus <;>
    cases hg : optTruthy d.gres <;> simp

/-! ## Runner dispatch (`get_runner`) and plan creation (`plan_execution`)

`get_runner` (execution.py lines 377-384) accepts exactly the strings
`"local"`, `"ssh"` and `"slurm"` and raises `ValueError` for anything
else; `plan_execution` (main.py lines 427-452) calls it BEFORE the
`ExecutionPlan` row is constructed and committed, so an unknown kind
leaves the plan store untouched. -/

/-- The three backend variants a runner string can resolve to. -/
inductive RunnerVariant where
  | localRunner
  | sshRunner
  | slurmRunner
deriving DecidableEq, Repr

/-- Model of `get_runner` (execution.py lines 377-384). -/
def get_runner (runner : String) : Except String RunnerVariant :=
  if runner = "local" then .ok .localRunner
  else if runner = "ssh" then .ok .sshRunner
  else if runner = "slurm" then .ok .slurmRunner
  else .error ("Unknown runner: " ++ runner)

/-- A persisted `ExecutionPlan` row as `plan_execution` creates it. -/
structure PlanRecord where
  project_id : Nat
  runner : String
  commands : List String
  approved : Bool
deriving DecidableEq, Repr

/-- Model of the `plan_execution` endpoint (main.py lines 427-452):
`get_runner` runs first and its `ValueError` propagates before any
`ExecutionPlan` row is added to the store; otherwise the screener output
is computed, the row is persisted with `approved = False`, and the
response carries the warnings. -/
def plan_execution (project_id : Nat) (runner : String) (commands : List String)
    (context : String) (plans : List PlanRecord) :
    Except String (List PlanRecord × List String) :=
  match get_runner runner with
  | .error msg => .error msg
  | .ok _ =>
    .ok (plans ++ [⟨project_id, runner, commands, false⟩],
      (runner_plan commands context).2.1)

/-- C5 fails on the code: the lookup keys are NOT `local`/`remote`/`batch`
— the kinds `"remote"` and `"batch"` themselves raise the unknown-runner
error, while the actually accepted spellings are `"ssh"` and `"slurm"`. -/
theorem C5_counterexample :
    get_runner "remote" = .error "Unknown runner: remote" ∧
      get_runner "batch" = .error "Unknown runner: batch" ∧
      get_runner "ssh" = .ok RunnerVariant.sshRunner ∧
      get_runner "slurm" = .ok RunnerVariant.slurmRunner := by
  refine ⟨by decide, by decide, by decide, by decide⟩

/-- C5 (amended): selection is keyed on the runner kind with exactly the
three kinds `local`, `ssh` and `slurm` resolving to the Local, Remote
Session and Batch Scheduler variants; every other kind string makes
`get_runner` raise the unknown-runner error immediately, and the plan
operation then errors without persisting any ExecutionPlan record. -/
theorem C5_runner_dispatch (s : String) (pid : Nat) (cmds : List String)
    (ctx : String) (plans : List PlanRecord) :
    (get_runner "local" = .ok .localRunner ∧
      get_runner "ssh" = .ok .sshRunner ∧
      get_runner "slurm" = .ok .slurmRunner) ∧
    (s ≠ "local" → s ≠ "ssh" → s ≠ "slurm" →
      get_runner s = .error ("Unknown runner: " ++ s) ∧
        plan_execution pid s cmds ctx plans =
          .error ("Unknown runner: " ++ s)) := by
  refine ⟨⟨by decide, by decide, by decide⟩, ?_⟩
  intro h1 h2 h3
  have hg : get_runner s = .error ("Unknown runner: " ++ s) := by
    unfold get_runner
    rw [if_neg h1, if_neg h2, if_neg h3]
  refine ⟨hg, ?_⟩
  unfold plan_execution
  rw [hg]

theorem C5_witness :
    (("qsub" : String) ≠ "local" ∧ ("qsub" : String) ≠ "ssh" ∧
      ("qsub" : String) ≠ "slurm") ∧
    (get_runner "qsub" = .error ("Unknown runner: " ++ "qsub") ∧
      plan_execution 1 "qsub" ["echo hi"] "" [] =
        .error ("Unknown runner: " ++ "qsub")) :=
  ⟨⟨by decide, by decide, by decide⟩,
   (C5_runner_dispatch "qsub" 1 ["echo hi"] "" []).2
     (by decide) (by decide) (by decide)⟩

/-! ## Cancellation (`ExecutionProvider.cancel`, `SlurmRunner.cancel`,
`cancel_execution` endpoint)

The Execution row keeps only the fields cancellation touches or reads.
`SlurmRunner.cancel` opens a fresh session, issues `scancel <job_id>`
(never reading its exit status) and closes the session; the remote
commands it issued are recorded as a trace. -/

/-- The Execution row fields relevant to cancellation. -/
structure Execution where
  status : String
  exit_code : Option Int
  updated_at : Nat
deriving DecidableEq, Repr

/-- The plan fields `cancel_execution` reads: the runner kind and the
`slurm_job_id` entry of the context blob. -/
structure ExecPlanCtx where
  runner : String
  slurm_job_id : Option String
deriving DecidableEq, Repr

/-- Model of the base `ExecutionProvider.cancel` (execution.py lines
26-31): unconditionally set status `cancelled` and refresh `updated_at`;
nothing else is read or checked. -/
def provider_cancel (e : Execution) (now : Nat) : Execution :=
  { e with status := "cancelled", updated_at := now }

/-- Python truthiness of `context.get("slurm_job_id")`. -/
def pyTruthyStr : Option String → Bool
  | none => false
  | some s => !(s == "")

/-- Model of `SlurmRunner.cancel` (execution.py lines 335-357).  A falsy
job id delegates to the base cancel with no remote call; otherwise a
fresh session is opened, `scancel <job_id>` is issued (its exit status
`scancelExit` is never read), the session is closed, and the Execution is
marked `cancelled`.  The second component lists the remote commands
issued over the fresh session. -/
def slurm_cancel (jobId : Option String) (scancelExit : Int) (e : Execution)
    (now : Nat) : Execution × List String :=
  if pyTruthyStr jobId then
    ({ e with status := "cancelled", updated_at := now },
     ["scancel " ++ jobId.getD ""])
  else
    (provider_cancel e now, [])

/-- Which `cancel` implementation each variant runs: only `SlurmRunner`
overrides the base one. -/
def variant_cancel (v : RunnerVariant) (jobId : Option String) (scancelExit : Int)
    (e : Execution) (now : Nat) : Execution × List String :=
  match v with
  | .slurmRunner => slurm_cancel jobId scancelExit e now
  | _ => (provider_cancel e now, [])

/-- Model of the `cancel_execution` endpoint (main.py lines 521-532):
look up the Execution and its plan (404 if missing), dispatch through
`get_runner`, and call the runner's `cancel` — with no check whatsoever
of the execution's current status. -/
def cancel_execution (execu : Option Execution) (plan : Option ExecPlanCtx)
    (scancelExit : Int) (now : Nat) : Except String (Execution × List String) :=
  match execu with
  | none => .error "Execution not found"
  | some e =>
    match plan with
    | none => .error "Plan not found"
    | some p =>
      match get_runner p.runner with
      | .error msg => .error msg
      | .ok v => .ok (variant_cancel v p.slurm_job_id scancelExit e now)

/-- C6: for a scheduler-backed execution, a recorded (truthy) job id
makes cancel issue exactly `scancel <job_id>` over a fresh session and
mark the Execution `cancelled`; without a recorded job id no remote call
of any kind is made and the generic base cancel runs; and the outcome is
identical for every possible exit status of the remote cancel command. -/
theorem C6_slurm_cancel (jobId : Option String) (sc sc2 : Int) (e : Execution)
    (now : Nat) :
    (pyTruthyStr jobId = true →
      slurm_cancel jobId sc e now =
        ({ e with status := "cancelled", updated_at := now },
         ["scancel " ++ jobId.getD ""])) ∧
    (pyTruthyStr jobId = false →
      slurm_cancel jobId sc e now = (provider_cancel e now, [])) ∧
    slurm_cancel jobId sc e now = slurm_cancel jobId sc2 e now := by
  refine ⟨?_, ?_, rfl⟩
  · intro h; simp [slurm_cancel, h]
  · intro h; simp [slurm_cancel, h]

/-- Execution row for the C6 witness. -/
def eC6 : Execution := ⟨"running", none, 3⟩

theorem C6_witness :
    pyTruthyStr (some "42") = true ∧
      slurm_cancel (some "42") 7 eC6 9 =
        ({ eC6 with status := "cancelled", updated_at := 9 },
         ["scancel " ++ (some "42" : Option String).getD ""]) :=
  ⟨by decide, (C6_slurm_cancel (some "42") 7 7 eC6 9).1 (by decide)⟩

/-- C10: cancel never checks the current status: the base cancel maps ANY
Execution — including one already `completed`, `failed` or `cancelled` —
to status `cancelled` with a refreshed timestamp and otherwise unchanged
fields, and every successful pass through the cancel endpoint ends with
status `cancelled` and the refreshed timestamp. -/
theorem C10_cancel_unconditional (e : Execution) (p : ExecPlanCtx) (sc : Int)
    (now : Nat) (res : Execution × List String) :
    ((provider_cancel e now).status = "cancelled" ∧
      (provider_cancel e now).updated_at = now ∧
      (provider_cancel e now).exit_code = e.exit_code) ∧
    (cancel_execution (some e) (some p) sc now = .ok res →
      res.1.status = "cancelled" ∧ res.1.updated_at = now) := by
  refine ⟨⟨rfl, rfl, rfl⟩, ?_⟩
  intro h
  simp only [cancel_execution] at h
  cases hg : get_runner p.runner with
  | error msg => rw [hg] at h; simp at h
  | ok v =>
    rw [hg] at h
    simp only [Except.ok.injEq] at h
    subst h
    cases v with
    | localRunner => simp [variant_cancel, provider_cancel]
    | sshRunner => simp [variant_cancel, provider_cancel]
    | slurmRunner =>
      by_cases hj : pyTruthyStr p.slurm_job_id
      · simp [variant_cancel, slurm_cancel, hj]
      · simp [variant_cancel, slurm_cancel, hj, provider_cancel]

/-- An already-completed Execution row for the C10 witness, retroactively
re-marked `cancelled` by the endpoint. -/
def eDone : Execution := ⟨"completed", some 0, 3⟩

theorem C10_witness :
    cancel_execution (some eDone) (some ⟨"slurm", none⟩) 2 5 =
        .ok (⟨"cancelled", some 0, 5⟩, []) ∧
      ((⟨"cancelled", some 0, 5⟩, ([] : List String)) :
          Execution × List String).1.status = "cancelled" ∧
      ((⟨"cancelled", some 0, 5⟩, ([] : List String)) :
          Execution × List String).1.updated_at = 5 :=
  ⟨by decide,
   ((C10_cancel_unconditional eDone ⟨"slurm", none⟩ 2 5
       (⟨"cancelled", some 0, 5⟩, [])).2 (by decide)).1,
   ((C10_cancel_unconditional eDone ⟨"slurm", none⟩ 2 5
       (⟨"cancelled", some 0, 5⟩, [])).2 (by decide)).2⟩

end Buddy
